import Mathlib

/-!
Verification development for the PRODUCTIFY backend's product resource
handlers (src/Backend/src/index.ts).  The six Express handlers are embedded
as pure Lean functions from (identity, path parameters, parsed body,
database state) to (HTTP response, new database state).  The persistence
layer (src/db/queries) is external to the provided sources and is modelled
from the specification's collaborator contract.
-/

namespace Productify

/-- A Product record, the only entity of the data model. -/
structure Product where
  id : String
  title : String
  description : String
  imageUrl : String
  userId : String
  deriving Repr, DecidableEq

/-- A JSON value appearing as a body field: either a string, or any
non-string JSON value (number, boolean, null, object, array).  The
handlers only ever distinguish "is a string" from "is not a string"
(via `typeof v === 'string'`), so non-string values are collapsed. -/
inductive JVal where
  | str (s : String)
  | nonString
  deriving Repr, DecidableEq

/-- The parsed request body.  `none` models an absent key (destructuring
yields `undefined`); `some v` a present key with JSON value `v`.  The
`userId` key is carried so we can state that `createProduct` never reads
it. -/
structure Body where
  title : Option JVal := none
  description : Option JVal := none
  imageUrl : Option JVal := none
  userId : Option JVal := none
  deriving Repr, DecidableEq

/-- A path-parameter value as the routing layer may deliver it:
absent (`none`), a single string, or an array of strings. -/
abbrev ParamVal : Type := Option (String ⊕ List String)

/-- `Array.isArray(id) ? id[0] : id` — unwrap a path parameter to a
single string; an absent parameter or an empty array yields `none`
(JavaScript `undefined`). -/
def unwrapId : ParamVal → Option String
  | some (Sum.inl s) => some s
  | some (Sum.inr l) => l.head?
  | none => none

/-- `!rawId` — a raw id is falsy when it is `undefined` or the empty
string. -/
def idMissing : Option String → Bool
  | none => true
  | some s => s = ""

/-- The ECMAScript white-space and line-terminator set recognized by
`String.prototype.trim`. -/
def jsWhitespace (c : Char) : Bool :=
  c.toNat = 0x9 ∨ c.toNat = 0xA ∨ c.toNat = 0xB ∨ c.toNat = 0xC ∨
  c.toNat = 0xD ∨ c.toNat = 0x20 ∨ c.toNat = 0xA0 ∨ c.toNat = 0x1680 ∨
  (0x2000 ≤ c.toNat ∧ c.toNat ≤ 0x200A) ∨ c.toNat = 0x2028 ∨
  c.toNat = 0x2029 ∨ c.toNat = 0x202F ∨ c.toNat = 0x205F ∨
  c.toNat = 0x3000 ∨ c.toNat = 0xFEFF

/-- JavaScript `s.trim()`: delete leading and trailing white space. -/
def jsTrim (s : String) : String :=
  String.mk (((s.data.dropWhile jsWhitespace).reverse.dropWhile jsWhitespace).reverse)

/-- `typeof v === 'string' && v.trim().length > 0`, applied to a
destructured body field (which may be `undefined`). -/
def isNonEmptyString : Option JVal → Bool
  | some (JVal.str s) => (jsTrim s).length > 0
  | _ => false

/-- The string content of a body field, defined when it is a string. -/
def JVal.asString : JVal → String
  | JVal.str s => s
  | JVal.nonString => ""

/-- Response bodies the handlers produce: an error object, a message
object, a single Product, or a sequence of Products. -/
inductive ResBody where
  | errorMsg (e : String)
  | messageMsg (m : String)
  | product (p : Product)
  | products (ps : List Product)
  deriving Repr, DecidableEq

/-- An HTTP response: status code and JSON body. -/
structure Response where
  status : Nat
  body : ResBody
  deriving Repr, DecidableEq

/-- The database state: the stored Product records. -/
abbrev Store : Type := List Product

/-- Modelled from the spec: the persistence layer's `getAllProducts()`,
which returns every Product in persistence-defined order. -/
def qGetAllProducts (db : Store) : List Product := db

/-- Modelled from the spec: the persistence layer's
`getProductsByUserId(userId)`, returning the Products whose `userId`
equals the argument. -/
def qGetProductsByUserId (u : String) (db : Store) : List Product :=
  db.filter (fun p => p.userId = u)

/-- Modelled from the spec: the persistence layer's `getProductById(id)`,
returning the Product with the given id or null for not-found.  A call
with an undefined id (`none`) matches no record. -/
def qGetProductById (rid : Option String) (db : Store) : Option Product :=
  match rid with
  | none => none
  | some s => db.find? (fun p => p.id = s)

/-- Modelled from the spec: part of the persistence layer's
`createProduct({title, description, imageUrl, userId})`; the store
assigns the fresh opaque id, passed here as `newId`. -/
def qCreateProduct (newId title description imageUrl userId : String)
    (db : Store) : Product × Store :=
  let p : Product :=
    { id := newId, title := title, description := description,
      imageUrl := imageUrl, userId := userId }
  (p, db ++ [p])

/-- The partial update object built by `updateProduct`: only validated,
present fields are ever put into it. -/
structure Updates where
  title : Option String := none
  description : Option String := none
  imageUrl : Option String := none
  deriving Repr, DecidableEq

/-- `Object.keys(updates).length === 0`. -/
def Updates.isEmpty (u : Updates) : Bool :=
  u.title = none ∧ u.description = none ∧ u.imageUrl = none

/-- Apply a partial update to a record: supplied fields replace the old
values, unspecified fields retain their prior values; `id` and `userId`
are not part of the update object at all. -/
def applyUpdates (u : Updates) (p : Product) : Product :=
  { p with
    title := u.title.getD p.title,
    description := u.description.getD p.description,
    imageUrl := u.imageUrl.getD p.imageUrl }

/-- Modelled from the spec: the persistence layer's
`updateProduct(id, partialFields)` — apply the partial update to the
record with the given id. -/
def qUpdateProduct (rid : Option String) (u : Updates) (db : Store) : Store :=
  db.map (fun p => if rid = some p.id then applyUpdates u p else p)

/-- Modelled from the spec: the persistence layer's `deleteProduct(id)`
— remove the record with the given id. -/
def qDeleteProduct (rid : Option String) (db : Store) : Store :=
  db.filter (fun p => ¬ rid = some p.id)

/-- Handler `getAllProducts`: fetch every Product, status 200. -/
def getAllProducts (db : Store) : Response :=
  { status := 200, body := ResBody.products (qGetAllProducts db) }

/-- Handler `getMyProducts`: 401 without identity, else the caller's
Products with status 200. -/
def getMyProducts (identity : Option String) (db : Store) : Response :=
  match identity with
  | none => { status := 401, body := ResBody.errorMsg "Unauthorized" }
  | some userId =>
      { status := 200, body := ResBody.products (qGetProductsByUserId userId db) }

/-- Handler `getProductById`: unwrap the id parameter, 400 when falsy,
404 when no record matches, else 200 with the record. -/
def getProductById (pid : ParamVal) (db : Store) : Response :=
  let rawId := unwrapId pid
  if idMissing rawId then
    { status := 400, body := ResBody.errorMsg "Product id is required" }
  else
    match qGetProductById rawId db with
    | none => { status := 404, body := ResBody.errorMsg "Product not found" }
    | some p => { status := 200, body := ResBody.product p }

/-- Handler `createProduct`: 401 without identity; 400 unless `title`,
`description` and `imageUrl` are all non-empty-after-trim strings; else
persist a record whose `userId` is the caller's identity (the body's
`userId` key is never destructured) and answer 201 with it. -/
def createProduct (identity : Option String) (body : Body) (newId : String)
    (db : Store) : Response × Store :=
  match identity with
  | none => ({ status := 401, body := ResBody.errorMsg "Unauthorized" }, db)
  | some userId =>
      if ¬ isNonEmptyString body.title ∨ ¬ isNonEmptyString body.description
          ∨ ¬ isNonEmptyString body.imageUrl then
        ({ status := 400,
           body := ResBody.errorMsg "Title, description, and imageUrl are required" },
         db)
      else
        let r := qCreateProduct newId ((body.title.getD JVal.nonString).asString)
          ((body.description.getD JVal.nonString).asString)
          ((body.imageUrl.getD JVal.nonString).asString) userId db
        ({ status := 201, body := ResBody.product r.1 }, r.2)

/-- The field-validation phase of `updateProduct` for one field: an
absent field contributes nothing, a present non-empty-after-trim string
is added to the update object, and any other present value aborts with
the field-specific error message. -/
def checkField (v : Option JVal) (err : String) : Except String (Option String) :=
  match v with
  | none => Except.ok none
  | some jv =>
      if isNonEmptyString (some jv) then Except.ok (some jv.asString)
      else Except.error err

/-- The whole validation phase of `updateProduct`, in source order:
title, then description, then imageUrl; the first invalid present field
short-circuits the rest. -/
def validateUpdates (body : Body) : Except String Updates :=
  match checkField body.title "Invalid title" with
  | Except.error e => Except.error e
  | Except.ok t =>
      match checkField body.description "Invalid description" with
      | Except.error e => Except.error e
      | Except.ok d =>
          match checkField body.imageUrl "Invalid imageUrl" with
          | Except.error e => Except.error e
          | Except.ok i =>
              Except.ok { title := t, description := d, imageUrl := i }

/-- Handler `updateProduct`: 401 without identity; field validation with
fail-fast 400s; 400 when the update object is empty; then lookup (404),
ownership check (403), and finally the partial update with status 200. -/
def updateProduct (identity : Option String) (pid : ParamVal) (body : Body)
    (db : Store) : Response × Store :=
  match identity with
  | none => ({ status := 401, body := ResBody.errorMsg "Unauthorized" }, db)
  | some userId =>
      match validateUpdates body with
      | Except.error e => ({ status := 400, body := ResBody.errorMsg e }, db)
      | Except.ok updates =>
          if updates.isEmpty then
            ({ status := 400,
               body := ResBody.errorMsg "At least one field is required" }, db)
          else
            let rawId := unwrapId pid
            match qGetProductById rawId db with
            | none =>
                ({ status := 404, body := ResBody.errorMsg "Product not found" }, db)
            | some existing =>
                if ¬ existing.userId = userId then
                  ({ status := 403,
                     body := ResBody.errorMsg "You can only update your own products" },
                   db)
                else
                  ({ status := 200,
                     body := ResBody.product (applyUpdates updates existing) },
                   qUpdateProduct rawId updates db)

/-- Handler `deleteProduct`: 401 without identity; lookup (404),
ownership check (403), then removal with status 200. -/
def deleteProduct (identity : Option String) (pid : ParamVal)
    (db : Store) : Response × Store :=
  match identity with
  | none => ({ status := 401, body := ResBody.errorMsg "Unauthorized" }, db)
  | some userId =>
      let rawId := unwrapId pid
      match qGetProductById rawId db with
      | none => ({ status := 404, body := ResBody.errorMsg "Product not found" }, db)
      | some existing =>
          if ¬ existing.userId = userId then
            ({ status := 403,
               body := ResBody.errorMsg "You can only delete your own products" }, db)
          else
            ({ status := 200,
               body := ResBody.messageMsg "Product deleted successfully" },
             qDeleteProduct rawId db)

/-- A sample stored record, owned by identity `userA`. -/
def sampleProduct : Product :=
  { id := "p1", title := "Chair", description := "Oak chair",
    imageUrl := "http://x/y.png", userId := "userA" }

/-- A sample one-record store. -/
def sampleDb : Store := [sampleProduct]

/-- A sample valid create body that also smuggles a `userId` key. -/
def sampleBody : Body :=
  { title := some (JVal.str "T"), description := some (JVal.str "D"),
    imageUrl := some (JVal.str "http://x/y.png"),
    userId := some (JVal.str "intruder") }

/- ### Helper lemmas -/

/-- A successful lookup pins the raw id to the found record's id. -/
theorem qGetProductById_some (rid : Option String) (db : Store) (p : Product)
    (h : qGetProductById rid db = some p) : rid = some p.id := by
  cases rid with
  | none => simp [qGetProductById] at h
  | some s =>
      simp only [qGetProductById] at h
      have hp := List.find?_some h
      simp only [decide_eq_true_eq] at hp
      rw [hp]

/-- After removing an id from the store, looking it up finds nothing. -/
theorem qGetProductById_qDeleteProduct (rid : Option String) (db : Store) :
    qGetProductById rid (qDeleteProduct rid db) = none := by
  cases rid with
  | none => rfl
  | some s =>
      simp only [qGetProductById, qDeleteProduct]
      refine List.find?_eq_none.mpr ?_
      intro x hx
      rcases List.mem_filter.mp hx with ⟨hx1, hx2⟩
      simp only [decide_eq_true_eq, Option.some.injEq] at hx2 ⊢
      exact fun h => hx2 h.symm

/-- A falsy raw id finds nothing in a store whose records all have
non-blank ids. -/
theorem qGetProductById_none_of_blank (rid : Option String) (db : Store)
    (hid : idMissing rid = true) (hdb : ∀ p ∈ db, p.id ≠ "") :
    qGetProductById rid db = none := by
  cases rid with
  | none => rfl
  | some s =>
      have hs : s = "" := by simpa [idMissing] using hid
      simp only [qGetProductById]
      refine List.find?_eq_none.mpr ?_
      intro x hx
      simp only [decide_eq_true_eq]
      rw [hs]
      exact hdb x hx

/-- The success path of `updateProduct`, as one equation. -/
theorem updateProduct_ok (u : String) (pid : ParamVal) (body : Body)
    (db : Store) (updates : Updates) (p : Product)
    (hv : validateUpdates body = Except.ok updates)
    (hne : updates.isEmpty = false)
    (hf : qGetProductById (unwrapId pid) db = some p)
    (hown : p.userId = u) :
    updateProduct (some u) pid body db =
      ({ status := 200, body := ResBody.product (applyUpdates updates p) },
       qUpdateProduct (unwrapId pid) updates db) := by
  simp [updateProduct, hv, hne, hf, hown]

/-- When validation succeeds, each body field that was supplied as a
string lands in the update object verbatim. -/
theorem validateUpdates_ok_fields (body : Body) (updates : Updates)
    (h : validateUpdates body = Except.ok updates) :
    (∀ t : String, body.title = some (JVal.str t) → updates.title = some t) ∧
    (∀ d : String, body.description = some (JVal.str d) →
      updates.description = some d) ∧
    (∀ i : String, body.imageUrl = some (JVal.str i) →
      updates.imageUrl = some i) := by
  unfold validateUpdates at h
  rcases h1 : checkField body.title "Invalid title" with e1 | topt <;>
    rw [h1] at h
  · simp at h
  rcases h2 : checkField body.description "Invalid description" with e2 | dopt <;>
    rw [h2] at h
  · simp at h
  rcases h3 : checkField body.imageUrl "Invalid imageUrl" with e3 | iopt <;>
    rw [h3] at h
  · simp at h
  simp only [Except.ok.injEq] at h
  subst h
  refine ⟨?_, ?_, ?_⟩
  · intro t ht
    rw [ht] at h1
    simp only [checkField] at h1
    split at h1
    · simpa [JVal.asString] using (Except.ok.inj h1).symm
    · simp at h1
  · intro d hd
    rw [hd] at h2
    simp only [checkField] at h2
    split at h2
    · simpa [JVal.asString] using (Except.ok.inj h2).symm
    · simp at h2
  · intro i hi
    rw [hi] at h3
    simp only [checkField] at h3
    split at h3
    · simpa [JVal.asString] using (Except.ok.inj h3).symm
    · simp at h3

/- ### Claims -/

/-- C1: for every createProduct request with an authenticated identity and
valid title, description and imageUrl, the created Product's userId equals
the caller's identity, and a userId supplied in the request body is never
read, so it has no effect on the result. -/
theorem C1_createProduct_userId_from_identity (u newId : String)
    (body : Body) (db : Store)
    (ht : isNonEmptyString body.title = true)
    (hd : isNonEmptyString body.description = true)
    (hi : isNonEmptyString body.imageUrl = true) :
    createProduct (some u) body newId db =
      ({ status := 201, body := ResBody.product
          { id := newId,
            title := (body.title.getD JVal.nonString).asString,
            description := (body.description.getD JVal.nonString).asString,
            imageUrl := (body.imageUrl.getD JVal.nonString).asString,
            userId := u } },
       db ++ [{ id := newId,
                title := (body.title.getD JVal.nonString).asString,
                description := (body.description.getD JVal.nonString).asString,
                imageUrl := (body.imageUrl.getD JVal.nonString).asString,
                userId := u }]) ∧
    ∀ v : Option JVal,
      createProduct (some u) { body with userId := v } newId db =
        createProduct (some u) body newId db := by
  constructor
  · simp [createProduct, qCreateProduct, ht, hd, hi]
  · intro v
    rfl

/-- C1 witness: a concrete create whose body smuggles a userId key is
stored under the caller's identity, and changing the smuggled key changes
nothing. -/
theorem C1_createProduct_userId_from_identity_witness :
    createProduct (some "userA") sampleBody "n1" [] =
      ({ status := 201, body := ResBody.product
          { id := "n1", title := "T", description := "D",
            imageUrl := "http://x/y.png", userId := "userA" } },
       [{ id := "n1", title := "T", description := "D",
          imageUrl := "http://x/y.png", userId := "userA" }]) ∧
    createProduct (some "userA")
        { sampleBody with userId := some (JVal.str "other") } "n1" [] =
      createProduct (some "userA") sampleBody "n1" [] :=
  ⟨(C1_createProduct_userId_from_identity "userA" "n1" sampleBody []
      (by decide) (by decide) (by decide)).1,
   (C1_createProduct_userId_from_identity "userA" "n1" sampleBody []
      (by decide) (by decide) (by decide)).2 (some (JVal.str "other"))⟩

/-- C2 as stated is false on the code: with identity present, the product
p1 existing, and a non-owner caller, updateProduct with an empty body
answers 400 "At least one field is required", not 403 — validation runs
before the ownership check. -/
theorem C2_nonowner_403_counterexample :
    qGetProductById (unwrapId (some (Sum.inl "p1"))) sampleDb = some sampleProduct ∧
    sampleProduct.userId ≠ "userB" ∧
    (updateProduct (some "userB") (some (Sum.inl "p1")) {} sampleDb).1 =
      { status := 400, body := ResBody.errorMsg "At least one field is required" } ∧
    (updateProduct (some "userB") (some (Sum.inl "p1")) {} sampleDb).1.status ≠ 403 := by
  decide

/-- C2 amended: a non-owner deleteProduct on an existing product always
answers 403 with the delete message and leaves the store unchanged, so the
product stays retrievable; a non-owner updateProduct answers 403 with the
update message provided the body passed field validation with at least one
recognized field, again leaving the store unchanged. -/
theorem C2_nonowner_403_amended :
    (∀ (u : String) (pid : ParamVal) (body : Body) (db : Store)
        (updates : Updates) (p : Product),
      validateUpdates body = Except.ok updates → updates.isEmpty = false →
      qGetProductById (unwrapId pid) db = some p → p.userId ≠ u →
      updateProduct (some u) pid body db =
        ({ status := 403,
           body := ResBody.errorMsg "You can only update your own products" }, db)) ∧
    (∀ (u : String) (pid : ParamVal) (db : Store) (p : Product),
      qGetProductById (unwrapId pid) db = some p → p.userId ≠ u →
      deleteProduct (some u) pid db =
        ({ status := 403,
           body := ResBody.errorMsg "You can only delete your own products" }, db) ∧
      getProductById pid (deleteProduct (some u) pid db).2 =
        getProductById pid db) := by
  constructor
  · intro u pid body db updates p hv hne hf hown
    simp [updateProduct, hv, hne, hf, hown]
  · intro u pid db p hf hown
    have hd : deleteProduct (some u) pid db =
        ({ status := 403,
           body := ResBody.errorMsg "You can only delete your own products" }, db) := by
      simp [deleteProduct, hf, hown]
    exact ⟨hd, by rw [hd]⟩

/-- C2 witness: userB hitting userA's product p1 gets 403 from both
update (with a valid body) and delete, with the store untouched. -/
theorem C2_nonowner_403_amended_witness :
    updateProduct (some "userB") (some (Sum.inl "p1"))
        { title := some (JVal.str "New") } sampleDb =
      ({ status := 403,
         body := ResBody.errorMsg "You can only update your own products" }, sampleDb) ∧
    deleteProduct (some "userB") (some (Sum.inl "p1")) sampleDb =
      ({ status := 403,
         body := ResBody.errorMsg "You can only delete your own products" }, sampleDb) :=
  ⟨C2_nonowner_403_amended.1 "userB" (some (Sum.inl "p1"))
      { title := some (JVal.str "New") } sampleDb
      { title := some "New" } sampleProduct rfl rfl rfl (by decide),
   (C2_nonowner_403_amended.2 "userB" (some (Sum.inl "p1")) sampleDb
      sampleProduct rfl (by decide)).1⟩

/-- C3: in updateProduct with identity present, each present body field
must be a non-empty-after-trim string, checked title, then description,
then imageUrl; the first invalid field answers 400 with its field-specific
message, short-circuiting the remaining checks and the lookup (the store
is untouched and irrelevant). -/
theorem C3_update_field_validation_order :
    (∀ (u : String) (pid : ParamVal) (body : Body) (db : Store) (v : JVal),
      body.title = some v → isNonEmptyString (some v) = false →
      updateProduct (some u) pid body db =
        ({ status := 400, body := ResBody.errorMsg "Invalid title" }, db)) ∧
    (∀ (u : String) (pid : ParamVal) (body : Body) (db : Store)
        (t : Option String) (v : JVal),
      checkField body.title "Invalid title" = Except.ok t →
      body.description = some v → isNonEmptyString (some v) = false →
      updateProduct (some u) pid body db =
        ({ status := 400, body := ResBody.errorMsg "Invalid description" }, db)) ∧
    (∀ (u : String) (pid : ParamVal) (body : Body) (db : Store)
        (t d : Option String) (v : JVal),
      checkField body.title "Invalid title" = Except.ok t →
      checkField body.description "Invalid description" = Except.ok d →
      body.imageUrl = some v → isNonEmptyString (some v) = false →
      updateProduct (some u) pid body db =
        ({ status := 400, body := ResBody.errorMsg "Invalid imageUrl" }, db)) := by
  refine ⟨?_, ?_, ?_⟩
  · intro u pid body db v hv hbad
    have he : validateUpdates body = Except.error "Invalid title" := by
      simp [validateUpdates, checkField, hv, hbad]
    simp [updateProduct, he]
  · intro u pid body db t v hok hv hbad
    have he : validateUpdates body = Except.error "Invalid description" := by
      unfold validateUpdates
      rw [hok]
      simp [checkField, hv, hbad]
    simp [updateProduct, he]
  · intro u pid body db t d v hok1 hok2 hv hbad
    have he : validateUpdates body = Except.error "Invalid imageUrl" := by
      unfold validateUpdates
      rw [hok1]
      dsimp only
      rw [hok2]
      simp [checkField, hv, hbad]
    simp [updateProduct, he]

/-- C3 witness: updating p1 with an empty title and a valid description
fails with 400 "Invalid title". -/
theorem C3_update_field_validation_order_witness :
    updateProduct (some "userA") (some (Sum.inl "p1"))
        { title := some (JVal.str ""), description := some (JVal.str "valid") }
        sampleDb =
      ({ status := 400, body := ResBody.errorMsg "Invalid title" }, sampleDb) :=
  C3_update_field_validation_order.1 "userA" (some (Sum.inl "p1"))
    { title := some (JVal.str ""), description := some (JVal.str "valid") }
    sampleDb (JVal.str "") rfl (by decide)

/-- C4: a successful updateProduct passes exactly the validated update
object to persistence: the updated record keeps its id and userId, every
unspecified field retains its prior value, and records with other ids are
untouched. -/
theorem C4_update_partial_frame (u : String) (pid : ParamVal) (body : Body)
    (db : Store) (updates : Updates) (p : Product)
    (hv : validateUpdates body = Except.ok updates)
    (hne : updates.isEmpty = false)
    (hf : qGetProductById (unwrapId pid) db = some p)
    (hown : p.userId = u) :
    updateProduct (some u) pid body db =
      ({ status := 200, body := ResBody.product (applyUpdates updates p) },
       qUpdateProduct (unwrapId pid) updates db) ∧
    (applyUpdates updates p).id = p.id ∧
    (applyUpdates updates p).userId = p.userId ∧
    (updates.title = none → (applyUpdates updates p).title = p.title) ∧
    (updates.description = none →
      (applyUpdates updates p).description = p.description) ∧
    (updates.imageUrl = none → (applyUpdates updates p).imageUrl = p.imageUrl) ∧
    (∀ q ∈ db, q.id ≠ p.id → q ∈ qUpdateProduct (unwrapId pid) updates db) := by
  refine ⟨updateProduct_ok u pid body db updates p hv hne hf hown,
    rfl, rfl, ?_, ?_, ?_, ?_⟩
  · intro h0; simp [applyUpdates, h0]
  · intro h0; simp [applyUpdates, h0]
  · intro h0; simp [applyUpdates, h0]
  · intro q hq hqid
    have hid : unwrapId pid = some p.id := qGetProductById_some _ db p hf
    have hfix : (fun r => if unwrapId pid = some r.id then applyUpdates updates r else r) q = q := by
      simp only [hid, Option.some.injEq]
      rw [if_neg]
      exact fun h => hqid h.symm
    have hm := List.mem_map_of_mem
      (fun r => if unwrapId pid = some r.id then applyUpdates updates r else r) hq
    rw [hfix] at hm
    simpa [qUpdateProduct] using hm

/-- C4 witness: updating p1's description alone returns the record with
only that field replaced and persists exactly that partial update. -/
theorem C4_update_partial_frame_witness :
    updateProduct (some "userA") (some (Sum.inl "p1"))
        { description := some (JVal.str " new ") } sampleDb =
      ({ status := 200, body := ResBody.product
          (applyUpdates { description := some " new " } sampleProduct) },
       qUpdateProduct (unwrapId (some (Sum.inl "p1")))
         { description := some " new " } sampleDb) :=
  (C4_update_partial_frame "userA" (some (Sum.inl "p1"))
    { description := some (JVal.str " new ") } sampleDb
    { description := some " new " } sampleProduct rfl rfl rfl rfl).1

/-- C5: updateProduct with identity present and a body containing none of
title, description and imageUrl answers 400 "At least one field is
required" for any store and any caller, leaving the store untouched. -/
theorem C5_update_no_recognized_field (u : String) (pid : ParamVal)
    (body : Body) (db : Store)
    (h1 : body.title = none) (h2 : body.description = none)
    (h3 : body.imageUrl = none) :
    updateProduct (some u) pid body db =
      ({ status := 400,
         body := ResBody.errorMsg "At least one field is required" }, db) := by
  simp [updateProduct, validateUpdates, checkField, h1, h2, h3, Updates.isEmpty]

/-- C5 witness: the empty body on an existing product and a non-owner
caller still answers 400 "At least one field is required". -/
theorem C5_update_no_recognized_field_witness :
    updateProduct (some "userB") (some (Sum.inl "p1")) {} sampleDb =
      ({ status := 400,
         body := ResBody.errorMsg "At least one field is required" }, sampleDb) :=
  C5_update_no_recognized_field "userB" (some (Sum.inl "p1")) {} sampleDb
    rfl rfl rfl

/-- C6: getProductById with a present, non-empty id answers 404 "Product
not found" when the lookup finds nothing, and 200 with the found Product
otherwise. -/
theorem C6_getProductById_lookup (pid : ParamVal) (db : Store)
    (h : idMissing (unwrapId pid) = false) :
    (qGetProductById (unwrapId pid) db = none →
      getProductById pid db =
        { status := 404, body := ResBody.errorMsg "Product not found" }) ∧
    (∀ p : Product, qGetProductById (unwrapId pid) db = some p →
      getProductById pid db = { status := 200, body := ResBody.product p }) := by
  constructor
  · intro h0
    simp [getProductById, h, h0]
  · intro p hp
    simp [getProductById, h, hp]

/-- C6 witness: a nonexistent id gives 404; the stored id gives 200 with
the record. -/
theorem C6_getProductById_lookup_witness :
    getProductById (some (Sum.inl "zz")) sampleDb =
      { status := 404, body := ResBody.errorMsg "Product not found" } ∧
    getProductById (some (Sum.inl "p1")) sampleDb =
      { status := 200, body := ResBody.product sampleProduct } :=
  ⟨(C6_getProductById_lookup (some (Sum.inl "zz")) sampleDb (by decide)).1
      (by decide),
   (C6_getProductById_lookup (some (Sum.inl "p1")) sampleDb (by decide)).2
      sampleProduct (by decide)⟩

/-- C7: getProductById answers 400 "Product id is required" when the id
parameter is absent or the empty string, independently of the store (no
lookup happens), and when the router supplies an array only its first
element is used. -/
theorem C7_getProductById_param_handling :
    (∀ db : Store, getProductById none db =
      { status := 400, body := ResBody.errorMsg "Product id is required" }) ∧
    (∀ db : Store, getProductById (some (Sum.inl "")) db =
      { status := 400, body := ResBody.errorMsg "Product id is required" }) ∧
    (∀ (s : String) (l : List String) (db : Store),
      getProductById (some (Sum.inr (s :: l))) db =
        getProductById (some (Sum.inl s)) db) := by
  refine ⟨fun db => rfl, fun db => rfl, fun s l db => rfl⟩

/-- C8 as stated is false on the code: updateProduct (with a valid field)
and deleteProduct never validate the id, so a blank id reaches the lookup
and, the store having no blank-id record, both answer 404, not 400. -/
theorem C8_blank_id_counterexample :
    (updateProduct (some "userA") (some (Sum.inl ""))
        { title := some (JVal.str "x") } sampleDb).1 =
      { status := 404, body := ResBody.errorMsg "Product not found" } ∧
    (deleteProduct (some "userA") (some (Sum.inl "")) sampleDb).1 =
      { status := 404, body := ResBody.errorMsg "Product not found" } ∧
    (updateProduct (some "userA") (some (Sum.inl ""))
        { title := some (JVal.str "x") } sampleDb).1.status ≠ 400 ∧
    (deleteProduct (some "userA") (some (Sum.inl "")) sampleDb).1.status ≠ 400 := by
  decide

/-- C8 amended: updateProduct and deleteProduct do not treat a missing or
blank id as a client input error; the lookup runs and, when no record of
the store has a blank id, both answer 404 "Product not found" with the
store unchanged. -/
theorem C8_blank_id_amended (u : String) (pid : ParamVal) (body : Body)
    (db : Store) (updates : Updates)
    (hv : validateUpdates body = Except.ok updates)
    (hne : updates.isEmpty = false)
    (hid : idMissing (unwrapId pid) = true)
    (hdb : ∀ p ∈ db, p.id ≠ "") :
    updateProduct (some u) pid body db =
      ({ status := 404, body := ResBody.errorMsg "Product not found" }, db) ∧
    deleteProduct (some u) pid db =
      ({ status := 404, body := ResBody.errorMsg "Product not found" }, db) := by
  have hnone := qGetProductById_none_of_blank (unwrapId pid) db hid hdb
  constructor
  · simp [updateProduct, hv, hne, hnone]
  · simp [deleteProduct, hnone]

/-- C8 witness: a blank id with a valid update body gives 404 on both
update and delete against the sample store. -/
theorem C8_blank_id_amended_witness :
    updateProduct (some "userA") (some (Sum.inl ""))
        { title := some (JVal.str "x") } sampleDb =
      ({ status := 404, body := ResBody.errorMsg "Product not found" }, sampleDb) ∧
    deleteProduct (some "userA") (some (Sum.inl "")) sampleDb =
      ({ status := 404, body := ResBody.errorMsg "Product not found" }, sampleDb) :=
  C8_blank_id_amended "userA" (some (Sum.inl ""))
    { title := some (JVal.str "x") } sampleDb { title := some "x" }
    rfl rfl rfl (by decide)

/-- C9: deleteProduct is idempotent in the failure sense: when the lookup
finds nothing the answer is 404 "Product not found" and the store is
untouched; and after any successful delete, a repeat delete of the same id
by any authenticated caller answers 404, never a second success. -/
theorem C9_delete_idempotent (u u2 : String) (pid : ParamVal) (db : Store) :
    (qGetProductById (unwrapId pid) db = none →
      deleteProduct (some u) pid db =
        ({ status := 404, body := ResBody.errorMsg "Product not found" }, db)) ∧
    ((deleteProduct (some u) pid db).1.status = 200 →
      (deleteProduct (some u2) pid (deleteProduct (some u) pid db).2).1 =
        { status := 404, body := ResBody.errorMsg "Product not found" }) := by
  constructor
  · intro h0
    simp [deleteProduct, h0]
  · intro hs
    rcases hq : qGetProductById (unwrapId pid) db with _ | p
    · simp [deleteProduct, hq] at hs
    · by_cases hown : p.userId = u
      · have h2 : (deleteProduct (some u) pid db).2 =
            qDeleteProduct (unwrapId pid) db := by
          simp [deleteProduct, hq, hown]
        rw [h2]
        simp [deleteProduct, qGetProductById_qDeleteProduct]
      · simp [deleteProduct, hq, hown] at hs

/-- C9 witness: deleting a nonexistent id gives 404 with the store intact,
and deleting p1 twice gives 404 the second time. -/
theorem C9_delete_idempotent_witness :
    deleteProduct (some "userA") (some (Sum.inl "zz")) sampleDb =
      ({ status := 404, body := ResBody.errorMsg "Product not found" }, sampleDb) ∧
    (deleteProduct (some "userB") (some (Sum.inl "p1"))
        (deleteProduct (some "userA") (some (Sum.inl "p1")) sampleDb).2).1 =
      { status := 404, body := ResBody.errorMsg "Product not found" } :=
  ⟨(C9_delete_idempotent "userA" "userB" (some (Sum.inl "zz")) sampleDb).1 rfl,
   (C9_delete_idempotent "userA" "userB" (some (Sum.inl "p1")) sampleDb).2
      (by decide)⟩

/-- C10: field values are stored exactly as supplied, untrimmed — trimming
only tests non-emptiness.  A valid create persists and returns the three
strings verbatim, and a successful update puts every supplied string into
the stored record verbatim. -/
theorem C10_untrimmed_storage :
    (∀ (u newId : String) (db : Store) (t d i : String) (bu : Option JVal),
      isNonEmptyString (some (JVal.str t)) = true →
      isNonEmptyString (some (JVal.str d)) = true →
      isNonEmptyString (some (JVal.str i)) = true →
      createProduct (some u)
          { title := some (JVal.str t), description := some (JVal.str d),
            imageUrl := some (JVal.str i), userId := bu } newId db =
        ({ status := 201, body := ResBody.product
            { id := newId, title := t, description := d, imageUrl := i,
              userId := u } },
         db ++ [{ id := newId, title := t, description := d, imageUrl := i,
                  userId := u }])) ∧
    (∀ (u : String) (pid : ParamVal) (body : Body) (db : Store)
        (updates : Updates) (p : Product),
      validateUpdates body = Except.ok updates → updates.isEmpty = false →
      qGetProductById (unwrapId pid) db = some p → p.userId = u →
      (updateProduct (some u) pid body db).1 =
        { status := 200, body := ResBody.product (applyUpdates updates p) } ∧
      (∀ t : String, body.title = some (JVal.str t) →
        (applyUpdates updates p).title = t) ∧
      (∀ d : String, body.description = some (JVal.str d) →
        (applyUpdates updates p).description = d) ∧
      (∀ i : String, body.imageUrl = some (JVal.str i) →
        (applyUpdates updates p).imageUrl = i)) := by
  constructor
  · intro u newId db t d i bu ht hd hi
    simp [createProduct, qCreateProduct, ht, hd, hi, JVal.asString]
  · intro u pid body db updates p hv hne hf hown
    obtain ⟨ft, fd, fi⟩ := validateUpdates_ok_fields body updates hv
    refine ⟨by rw [updateProduct_ok u pid body db updates p hv hne hf hown], ?_, ?_, ?_⟩
    · intro t ht
      simp [applyUpdates, ft t ht]
    · intro d hd
      simp [applyUpdates, fd d hd]
    · intro i hi
      simp [applyUpdates, fi i hi]

/-- C10 witness: a title " x " passes validation and is created verbatim
with its whitespace, and an update supplying " new " stores " new "
verbatim. -/
theorem C10_untrimmed_storage_witness :
    createProduct (some "userA")
        { title := some (JVal.str " x "), description := some (JVal.str "D"),
          imageUrl := some (JVal.str "I"), userId := none } "n1" [] =
      ({ status := 201, body := ResBody.product
          { id := "n1", title := " x ", description := "D", imageUrl := "I",
            userId := "userA" } },
       [{ id := "n1", title := " x ", description := "D", imageUrl := "I",
          userId := "userA" }]) ∧
    (applyUpdates { description := some " new " } sampleProduct).description =
      " new " :=
  ⟨C10_untrimmed_storage.1 "userA" "n1" [] " x " "D" "I" none
      (by decide) (by decide) (by decide),
   (C10_untrimmed_storage.2 "userA" (some (Sum.inl "p1"))
      { description := some (JVal.str " new ") } sampleDb
      { description := some " new " } sampleProduct rfl rfl rfl rfl).2.2.1
      " new " rfl⟩

end Productify
